import Mathlib

/-!
Verification of the VAD-directed memory dumper of vmi-unpack.

The definitions below are a shallow embedding of the dumper (`dump.c`) and
the output module (`output.c`):

* machine integers (`uint64_t` / `addr_t`) are `Nat` with reductions
  `% 2 ^ 64` applied exactly where the C arithmetic can wrap;
* VMI reads that can fail are `Option`-valued, or keep the C convention of
  leaving a zero-initialised output untouched when the function's status
  is ignored by the caller;
* the guest's VAD tree, together with the outcome of every introspection
  read the walker performs on it, is an inductive tree (`VadTree`);
* side effects that do not influence control flow or data (stderr logging,
  `free`) are not modelled.
-/

/-- Modulus of 64-bit address arithmetic (`addr_t` / `uint64_t`). -/
def UINT64_MOD : Nat := 2 ^ 64

/-- Modelled from the spec: `SEG_COUNT_MAX`, the capacity of a dump job's
segment array, is declared in a header that is not part of the sources;
the spec gives 1024 as its example value.  None of the theorems below
depend on the particular value. -/
def SEG_COUNT_MAX : Nat := 1024

/-- Byte offsets and flag bit-ranges loaded from the rekall profile
(the C global `process_vmi_windows_rekall`); only the fields the embedded
functions consult are kept. -/
structure RekallProfile where
  flags_vadtype_start : Nat
  flags_vadtype_end : Nat
  flags_isprivate_start : Nat
  flags_isprivate_end : Nat
  flags_protection_start : Nat
  flags_protection_end : Nat
  mmvad_controlarea : Nat
  controlarea_fileobject : Nat
  fileobject_filename : Nat
deriving DecidableEq

/-- `extract_field_value(packed, start, end)`: shift the packed flags word
right by `start`, then mask with `(1ULL << (end - start + 1)) - 1`.  For
every field that fits a 64-bit word (width at most 63) the `Nat` value is
exactly the C value; the C expression is undefined for width 64 and the
`Nat` model extends it mathematically. -/
def extract_field_value (packed start endb : Nat) : Nat :=
  (packed >>> start) &&& ((1 <<< (endb - start + 1)) - 1)

/-- `get_node_vadtype`: extract the VAD-type bit range from the flags word
read at `node + mmvad_flags`.  The argument is the value of that read (the
C code ignores the read's status and starts from a zero-initialised
word). -/
def get_node_vadtype (prof : RekallProfile) (flags : Nat) : Nat :=
  extract_field_value flags prof.flags_vadtype_start prof.flags_vadtype_end

/-- `get_node_isprivate`: extract the is-private bit range; the result is
stored through a `uint8_t` cast, hence the `% 256`. -/
def get_node_isprivate (prof : RekallProfile) (flags : Nat) : Nat :=
  extract_field_value flags prof.flags_isprivate_start prof.flags_isprivate_end % 256

/-- `get_node_protection`: extract the protection bit range; the result is
stored through a `uint8_t` cast, hence the `% 256`. -/
def get_node_protection (prof : RekallProfile) (flags : Nat) : Nat :=
  extract_field_value flags prof.flags_protection_start prof.flags_protection_end % 256

/-- Abstraction of the libvmi reads `get_node_filename` performs:
`read_addr a` is the pointer `vmi_read_addr_va(vmi, a, 0, ..)` stores (the
code ignores the status and starts from a zero-initialised variable, so a
failed read is the value 0); `read_unicode p` is the filename string
obtained from `vmi_read_unicode_str_va` at `p` followed by the UTF-8
conversion, `none` when the read returns `NULL`. -/
structure VmiMem where
  read_addr : Nat → Nat
  read_unicode : Nat → Option String

/-- `get_node_filename`: follow control area → file object (low three
bits masked off, an `EX_FAST_REF` tag) → filename pointer → Unicode
string.  A zero pointer anywhere in the chain, or a failed string read,
returns with the caller's zero-initialised output untouched, modelled as
`none`. -/
def get_node_filename (mem : VmiMem) (prof : RekallProfile) (node : Nat) : Option String :=
  let control_area := mem.read_addr (node + prof.mmvad_controlarea)
  if control_area = 0 then none
  else
    let file_object := mem.read_addr (control_area + prof.controlarea_fileobject)
    if file_object = 0 then none
    else
      let file_object := file_object &&& 0xFFFFFFFFFFFFFFF8
      let filename_ptr := mem.read_addr (file_object + prof.fileobject_filename)
      if filename_ptr = 0 then none
      else mem.read_unicode filename_ptr

/-- Outcome of every read `handle_node` performs on one VAD node:
`startingVpn` / `endingVpn` are the values `vmi_read_addr_va` returns for
the starting and ending virtual page numbers (`none` when the read fails,
in which case the C code returns early); `readSize` is the byte count
`vmi_read_va` reports for the node's extent; `flags` is the packed flags
word (zero when its ignored read fails); `filename` is the outcome of the
`get_node_filename` chain for this node. -/
structure NodeInfo where
  startingVpn : Option Nat
  endingVpn : Option Nat
  readSize : Nat
  flags : Nat
  filename : Option String
deriving DecidableEq

/-- One `vad_seg_t`: the captured buffer is modelled by its length
`buf_len` (the byte contents play no role in any claim). -/
structure vad_seg where
  base_va : Nat
  size : Nat
  va_size : Nat
  buf_len : Nat
  filename : Option String
  vadtype : Nat
  isprivate : Nat
  protection : Nat
deriving DecidableEq

/-- One `dump_layer_t`; the `segments` array of `SEG_COUNT_MAX` slots is
modelled as the list of its first `segment_count` filled entries. -/
structure dump_layer where
  pid : Nat
  rip : Nat
  segment_count : Nat
  segments : List vad_seg
deriving DecidableEq

/-- The segment `handle_node` fills in: `buf` is `malloc(size)`, then
shrunk by `realloc` to `read_size` exactly when the guest read returned
fewer bytes than requested, and `size` is overwritten by `read_size` in
the same case; `va_size` keeps the full virtual extent. -/
def mkSeg (prof : RekallProfile) (base_va size : Nat) (info : NodeInfo) : vad_seg :=
  { base_va := base_va
  , size := if info.readSize < size then info.readSize else size
  , va_size := size
  , buf_len := if info.readSize < size then info.readSize else size
  , filename := info.filename
  , vadtype := get_node_vadtype prof info.flags
  , isprivate := get_node_isprivate prof info.flags
  , protection := get_node_protection prof info.flags }

/-- The C statement `start <<= 12` on an `addr_t`: shift left by 12 in
64-bit arithmetic. -/
def vpn_shift (vpn : Nat) : Nat := (vpn <<< 12) % UINT64_MOD

/-- The C expression `end - start` on `addr_t` values below `2 ^ 64`:
64-bit wrapping subtraction. -/
def extent_sub (start stop : Nat) : Nat :=
  (stop + (UINT64_MOD - start)) % UINT64_MOD

/-- `handle_node`: skip when the job already holds `SEG_COUNT_MAX`
segments, when either virtual page number is unreadable, or when either
shifted bound is zero; otherwise append one segment built from the node.
The bounds are the vpns shifted left by 12 in 64-bit arithmetic and the
extent is the 64-bit difference `end - start` (the C locals are named
`start` and `end`; `end` is a Lean keyword, so the second is `stop`
here). -/
def handle_node (prof : RekallProfile) (info : NodeInfo) (dump : dump_layer) : dump_layer :=
  if SEG_COUNT_MAX ≤ dump.segment_count then dump
  else
    match info.startingVpn with
    | none => dump
    | some sv =>
      match info.endingVpn with
      | none => dump
      | some ev =>
        let start := vpn_shift sv
        let stop := vpn_shift ev
        if start = 0 ∨ stop = 0 then dump
        else
          { dump with
            segment_count := dump.segment_count + 1
            segments := dump.segments ++ [mkSeg prof start (extent_sub start stop) info] }

/-- The key `handle_node` appends a node under: its starting vpn shifted
left by 12 in 64-bit arithmetic, `none` when the vpn read failed. -/
def startBase (info : NodeInfo) : Option Nat :=
  info.startingVpn.map vpn_shift

mutual

/-- A VAD node as `vad_iterator` observes it: outcome of the left-child
pointer read, the per-node reads `handle_node` performs, and the outcome
of the right-child pointer read. -/
inductive VadTree : Type where
  | mk : ChildRead → NodeInfo → ChildRead → VadTree

/-- Outcome of reading one child pointer of a VAD node: the
`vmi_read_addr_va` call fails (the zero-initialised local is kept and the
failure is logged), the pointer reads as null, or it reads as a non-null
pointer to a subtree. -/
inductive ChildRead : Type where
  | fail : ChildRead
  | null : ChildRead
  | child : VadTree → ChildRead

end

mutual

/-- The sequence of nodes `vad_iterator` hands to its callback: left
subtree, then the node, then the right subtree. -/
def vadVisit : VadTree → List NodeInfo
  | .mk l i r => childVisit l ++ [i] ++ childVisit r

/-- Nodes visited below one child pointer: none when the pointer was
unreadable or null. -/
def childVisit : ChildRead → List NodeInfo
  | .fail => []
  | .null => []
  | .child t => vadVisit t

end

mutual

/-- `vad_iterator` specialised to the `handle_node` callback, threading
the `dump_layer_t` the callback mutates: recurse into the left child when
its pointer read yields a non-null pointer, visit the node, recurse into
the right child likewise. -/
def vad_iterator (prof : RekallProfile) (t : VadTree) (d : dump_layer) : dump_layer :=
  match t with
  | .mk l i r => child_iter prof r (handle_node prof i (child_iter prof l d))

/-- Traversal below one child pointer: an unreadable or null pointer
contributes nothing. -/
def child_iter (prof : RekallProfile) (c : ChildRead) (d : dump_layer) : dump_layer :=
  match c with
  | .fail => d
  | .null => d
  | .child t => vad_iterator prof t d

end

/-- `vad_dump_process`: allocate a fresh job with `segment_count = 0` for
the triggering pid and rip, then run `vad_iterator` with `handle_node`
over the process's VAD tree (the job is afterwards handed to
`queue_vads_to_dump`, outside this model). -/
def vad_dump_process (prof : RekallProfile) (pid rip : Nat) (t : VadTree) : dump_layer :=
  vad_iterator prof t { pid := pid, rip := rip, segment_count := 0, segments := [] }

/-- Claim C3: bit-field extraction is the identity on a word whose only
set bits are the field itself: for `s ≤ e` and `v < 2 ^ (e - s + 1)`,
`extract_field_value (v <<< s) s e = v`. -/
theorem claim_C3_extract_field_roundtrip (s e v : Nat)
    (hse : s ≤ e) (hv : v < 2 ^ (e - s + 1)) :
    extract_field_value (v <<< s) s e = v := by
  unfold extract_field_value
  rw [Nat.shiftLeft_shiftRight, Nat.shiftLeft_eq, one_mul]
  exact Nat.and_pow_two_sub_one_of_lt_two_pow hv

/-- Concrete instance of claim C3: the three-bit field `[2..4]` holding 5
round-trips through `extract_field_value`. -/
theorem claim_C3_witness :
    2 ≤ 4 ∧ 5 < 2 ^ (4 - 2 + 1) ∧ extract_field_value (5 <<< 2) 2 4 = 5 :=
  ⟨by decide, by decide,
    claim_C3_extract_field_roundtrip 2 4 5 (by decide) (by decide)⟩

/-- Case analysis of `handle_node`: either the job is returned unchanged,
or the cap is not reached, both vpns were readable with nonzero shifted
bounds, and exactly the segment built by `mkSeg` is appended. -/
theorem handle_node_spec (prof : RekallProfile) (info : NodeInfo) (d : dump_layer) :
    handle_node prof info d = d
  ∨ (d.segment_count < SEG_COUNT_MAX
     ∧ ∃ sv ev, info.startingVpn = some sv ∧ info.endingVpn = some ev
       ∧ vpn_shift sv ≠ 0 ∧ vpn_shift ev ≠ 0
       ∧ handle_node prof info d
           = { d with segment_count := d.segment_count + 1
                    , segments := d.segments ++
                        [mkSeg prof (vpn_shift sv)
                           (extent_sub (vpn_shift sv) (vpn_shift ev)) info] }) := by
  by_cases hc : SEG_COUNT_MAX ≤ d.segment_count
  · exact Or.inl (by simp [handle_node, hc])
  · cases hs : info.startingVpn with
    | none => exact Or.inl (by simp [handle_node, hc, hs])
    | some sv =>
      cases he : info.endingVpn with
      | none => exact Or.inl (by simp [handle_node, hc, hs, he])
      | some ev =>
        by_cases hz : vpn_shift sv = 0 ∨ vpn_shift ev = 0
        · exact Or.inl (by simp [handle_node, hc, hs, he, hz])
        · push_neg at hz
          exact Or.inr ⟨Nat.not_le.mp hc, sv, ev, rfl, rfl, hz.1, hz.2,
            by simp [handle_node, hc, hs, he, hz.1, hz.2]⟩

/-- `handle_node` never decreases the count and increases it by at most
one, only from below the cap. -/
theorem handle_node_count_le (prof : RekallProfile) (info : NodeInfo) (d : dump_layer)
    (h : d.segment_count ≤ SEG_COUNT_MAX) :
    (handle_node prof info d).segment_count ≤ SEG_COUNT_MAX := by
  rcases handle_node_spec prof info d with heq | ⟨hlt, _, _, _, _, _, _, heq⟩ <;> rw [heq]
  · exact h
  · exact hlt

/-- Folding `handle_node` over any node sequence keeps the count at or
below the cap. -/
theorem foldl_handle_count_le (prof : RekallProfile) :
    ∀ (infos : List NodeInfo) (d : dump_layer), d.segment_count ≤ SEG_COUNT_MAX →
      (infos.foldl (fun d i => handle_node prof i d) d).segment_count ≤ SEG_COUNT_MAX
  | [], _, h => h
  | info :: rest, d, h =>
    foldl_handle_count_le prof rest (handle_node prof info d)
      (handle_node_count_le prof info d h)

/-- Folding `handle_node` over a node sequence appends some segment list
whose base addresses form a sublist of the keys of the visited nodes. -/
theorem foldl_handle_segments (prof : RekallProfile) :
    ∀ (infos : List NodeInfo) (d : dump_layer),
      ∃ extra, (infos.foldl (fun d i => handle_node prof i d) d).segments
          = d.segments ++ extra
        ∧ List.Sublist (extra.map vad_seg.base_va) (infos.filterMap startBase)
  | [], d => ⟨[], by simp, by simp⟩
  | info :: rest, d => by
    obtain ⟨extra, hseg, hsub⟩ :=
      foldl_handle_segments prof rest (handle_node prof info d)
    rcases handle_node_spec prof info d with heq | ⟨_, sv, ev, hs, _, _, _, heq⟩
    · refine ⟨extra, by rw [List.foldl_cons, hseg, heq], hsub.trans ?_⟩
      cases hsb : startBase info with
      | none => simp [List.filterMap_cons, hsb]
      | some k => simp only [List.filterMap_cons, hsb]; exact List.sublist_cons_self _ _
    · refine ⟨mkSeg prof (vpn_shift sv) (extent_sub (vpn_shift sv) (vpn_shift ev)) info
        :: extra, ?_, ?_⟩
      · rw [List.foldl_cons, hseg, heq]
        simp
      · simp only [List.map_cons, List.filterMap_cons, startBase, hs, Option.map_some]
        exact List.Sublist.cons₂ _ hsub

mutual

/-- `vad_iterator` with the `handle_node` callback equals folding
`handle_node` over the in-order visit sequence. -/
theorem vad_iterator_eq_foldl (prof : RekallProfile) :
    ∀ (t : VadTree) (d : dump_layer),
      vad_iterator prof t d = (vadVisit t).foldl (fun d i => handle_node prof i d) d
  | .mk l i r, d => by
    have hl := child_iter_eq_foldl prof l d
    have hr := child_iter_eq_foldl prof r (handle_node prof i (child_iter prof l d))
    simp only [vad_iterator]
    rw [hr, hl]
    simp [vadVisit, List.foldl_append]

/-- Traversal below one child pointer equals folding over its visit
sequence. -/
theorem child_iter_eq_foldl (prof : RekallProfile) :
    ∀ (c : ChildRead) (d : dump_layer),
      child_iter prof c d = (childVisit c).foldl (fun d i => handle_node prof i d) d
  | .fail, _ => by simp [child_iter, childVisit]
  | .null, _ => by simp [child_iter, childVisit]
  | .child t, d => by simpa [child_iter, childVisit] using vad_iterator_eq_foldl prof t d

end

/-- Claim C1: on a VAD tree ordered as a binary search tree on virtual
addresses (the in-order sequence of the nodes' base addresses is strictly
increasing), the dump built by the in-order walk lists its segments in
strictly ascending `base_va` order. -/
theorem claim_C1_inorder_ascending_bases (prof : RekallProfile) (pid rip : Nat)
    (t : VadTree)
    (hbst : ((vadVisit t).filterMap startBase).Pairwise (· < ·)) :
    (((vad_dump_process prof pid rip t).segments.map vad_seg.base_va)).Pairwise (· < ·) := by
  unfold vad_dump_process
  rw [vad_iterator_eq_foldl]
  obtain ⟨extra, hseg, hsub⟩ := foldl_handle_segments prof (vadVisit t)
    { pid := pid, rip := rip, segment_count := 0, segments := [] }
  rw [hseg]
  simpa using List.Pairwise.sublist hsub hbst

/-- A node whose reads all succeed, with the given vpns and a full-extent
read result. -/
def sampleNode (sv ev : Nat) : NodeInfo :=
  { startingVpn := some sv, endingVpn := some ev
  , readSize := 4096, flags := 0, filename := none }

/-- A fixed profile instance for witnesses. -/
def sampleProf : RekallProfile :=
  { flags_vadtype_start := 0, flags_vadtype_end := 2
  , flags_isprivate_start := 3, flags_isprivate_end := 3
  , flags_protection_start := 4, flags_protection_end := 8
  , mmvad_controlarea := 8, controlarea_fileobject := 16
  , fileobject_filename := 72 }

/-- A three-node search tree with ascending vpns 1, 2, 3. -/
def sampleTree : VadTree :=
  .mk (.child (.mk .null (sampleNode 1 2) .null))
      (sampleNode 2 3)
      (.child (.mk .null (sampleNode 3 4) .null))

/-- Concrete instance of claim C1 on a three-node search tree. -/
theorem claim_C1_witness :
    ((vadVisit sampleTree).filterMap startBase).Pairwise (· < ·)
  ∧ (((vad_dump_process sampleProf 7 9 sampleTree).segments.map
        vad_seg.base_va)).Pairwise (· < ·) :=
  ⟨by decide, claim_C1_inorder_ascending_bases sampleProf 7 9 sampleTree (by decide)⟩

/-- Claim C2: starting from a job within the cap, a `handle_node` call
either leaves the job unchanged or, strictly below the cap, appends
exactly one segment and increments the count; any sequence of calls
keeps the count at or below `SEG_COUNT_MAX`, and jobs produced by
`vad_dump_process` never exceed it. -/
theorem claim_C2_segment_cap (prof : RekallProfile) (info : NodeInfo)
    (infos : List NodeInfo) (d : dump_layer)
    (h : d.segment_count ≤ SEG_COUNT_MAX) :
    (SEG_COUNT_MAX ≤ d.segment_count → handle_node prof info d = d)
  ∧ (handle_node prof info d = d
      ∨ (d.segment_count < SEG_COUNT_MAX ∧ ∃ seg, handle_node prof info d
           = { d with segment_count := d.segment_count + 1
                    , segments := d.segments ++ [seg] }))
  ∧ (infos.foldl (fun d i => handle_node prof i d) d).segment_count ≤ SEG_COUNT_MAX
  ∧ ∀ pid rip t, (vad_dump_process prof pid rip t).segment_count ≤ SEG_COUNT_MAX := by
  refine ⟨fun hc => by simp [handle_node, hc], ?_, foldl_handle_count_le prof infos d h, ?_⟩
  · rcases handle_node_spec prof info d with heq | ⟨hlt, sv, ev, _, _, _, _, heq⟩
    · exact Or.inl heq
    · exact Or.inr ⟨hlt, _, heq⟩
  · intro pid rip t
    rw [vad_dump_process, vad_iterator_eq_foldl]
    exact foldl_handle_count_le prof (vadVisit t) _ (by simp [SEG_COUNT_MAX])

/-- Concrete instance of claim C2: an empty job stays within the cap
through a sequence of `handle_node` calls. -/
theorem claim_C2_witness :
    (dump_layer.segment_count { pid := 1, rip := 2, segment_count := 0, segments := [] })
      ≤ SEG_COUNT_MAX
  ∧ ([sampleNode 1 2, sampleNode 2 3].foldl
        (fun d i => handle_node sampleProf i d)
        { pid := 1, rip := 2, segment_count := 0, segments := [] }).segment_count
      ≤ SEG_COUNT_MAX :=
  ⟨by decide,
    (claim_C2_segment_cap sampleProf (sampleNode 1 2) [sampleNode 1 2, sampleNode 2 3]
      { pid := 1, rip := 2, segment_count := 0, segments := [] } (by decide)).2.2.1⟩

/-- Claim C7: an unreadable child pointer skips only that subtree: the
node itself is still visited, the other subtree is still traversed, and
the walk behaves exactly as if the unreadable child were absent. -/
theorem claim_C7_unreadable_child_skips_only_subtree (prof : RekallProfile)
    (info : NodeInfo) (l r : ChildRead) (d : dump_layer) :
    vadVisit (.mk .fail info r) = info :: childVisit r
  ∧ vadVisit (.mk l info .fail) = childVisit l ++ [info]
  ∧ vad_iterator prof (.mk .fail info r) d = vad_iterator prof (.mk .null info r) d
  ∧ vad_iterator prof (.mk l info .fail) d = vad_iterator prof (.mk l info .null) d := by
  refine ⟨?_, ?_, ?_, ?_⟩ <;> simp [vadVisit, childVisit, vad_iterator, child_iter]

/-- Claim C8: when a vpn read fails or a shifted bound is zero,
`handle_node` returns the job completely unchanged. -/
theorem claim_C8_skip_leaves_job_unchanged (prof : RekallProfile) (info : NodeInfo)
    (d : dump_layer)
    (h : info.startingVpn = none ∨ info.endingVpn = none
       ∨ (∃ sv, info.startingVpn = some sv ∧ vpn_shift sv = 0)
       ∨ (∃ ev, info.endingVpn = some ev ∧ vpn_shift ev = 0)) :
    handle_node prof info d = d := by
  by_cases hc : SEG_COUNT_MAX ≤ d.segment_count
  · simp [handle_node, hc]
  · rcases h with h | h | ⟨sv, hs, hz⟩ | ⟨ev, he, hz⟩
    · simp [handle_node, hc, h]
    · cases hs : info.startingVpn <;> simp [handle_node, hc, h, hs]
    · cases he : info.endingVpn <;> simp [handle_node, hc, hs, he, hz]
    · cases hs : info.startingVpn <;> simp [handle_node, hc, he, hz, hs]

/-- A node whose starting vpn read failed. -/
def sampleNodeBadStart : NodeInfo :=
  { startingVpn := none, endingVpn := some 3
  , readSize := 0, flags := 0, filename := none }

/-- Concrete instance of claim C8: an unreadable starting vpn leaves the
job unchanged. -/
theorem claim_C8_witness :
    sampleNodeBadStart.startingVpn = none
  ∧ handle_node sampleProf sampleNodeBadStart
      { pid := 1, rip := 2, segment_count := 0, segments := [] }
      = { pid := 1, rip := 2, segment_count := 0, segments := [] } :=
  ⟨rfl, claim_C8_skip_leaves_job_unchanged sampleProf sampleNodeBadStart
    { pid := 1, rip := 2, segment_count := 0, segments := [] } (Or.inl rfl)⟩

/-- Claim C4: under the conditions in which `handle_node` appends a
segment, and with the libvmi guarantee that a read returns at most the
requested byte count, the appended segment records exactly the bytes the
read returned: its `size` and buffer length equal `read_size`, stay at or
below the virtual extent, and equal the extent whenever the read was not
short. -/
theorem claim_C4_size_equals_bytes_read (prof : RekallProfile) (info : NodeInfo)
    (d : dump_layer) (sv ev : Nat)
    (hc : d.segment_count < SEG_COUNT_MAX)
    (hs : info.startingVpn = some sv) (he : info.endingVpn = some ev)
    (h1 : vpn_shift sv ≠ 0) (h2 : vpn_shift ev ≠ 0)
    (hr : info.readSize ≤ extent_sub (vpn_shift sv) (vpn_shift ev)) :
    handle_node prof info d
      = { d with segment_count := d.segment_count + 1
               , segments := d.segments ++
                   [mkSeg prof (vpn_shift sv)
                      (extent_sub (vpn_shift sv) (vpn_shift ev)) info] }
  ∧ (mkSeg prof (vpn_shift sv) (extent_sub (vpn_shift sv) (vpn_shift ev)) info).size
      = info.readSize
  ∧ (mkSeg prof (vpn_shift sv) (extent_sub (vpn_shift sv) (vpn_shift ev)) info).buf_len
      = (mkSeg prof (vpn_shift sv) (extent_sub (vpn_shift sv) (vpn_shift ev)) info).size
  ∧ (mkSeg prof (vpn_shift sv) (extent_sub (vpn_shift sv) (vpn_shift ev)) info).size
      ≤ extent_sub (vpn_shift sv) (vpn_shift ev)
  ∧ (¬ info.readSize < extent_sub (vpn_shift sv) (vpn_shift ev) →
      (mkSeg prof (vpn_shift sv) (extent_sub (vpn_shift sv) (vpn_shift ev)) info).size
        = extent_sub (vpn_shift sv) (vpn_shift ev)) := by
  refine ⟨by simp [handle_node, Nat.not_le.mpr hc, hs, he, h1, h2], ?_, ?_, ?_, ?_⟩ <;>
    simp only [mkSeg] <;> split <;> omega

/-- A node whose guest read came back short: 100 of 8192 bytes. -/
def sampleNodeShortRead : NodeInfo :=
  { startingVpn := some 1, endingVpn := some 3
  , readSize := 100, flags := 0, filename := none }

/-- Concrete instance of claim C4: the short read of 100 bytes shrinks
the recorded size to 100 while the extent is 8192. -/
theorem claim_C4_witness :
    sampleNodeShortRead.readSize ≤ extent_sub (vpn_shift 1) (vpn_shift 3)
  ∧ (mkSeg sampleProf (vpn_shift 1) (extent_sub (vpn_shift 1) (vpn_shift 3))
       sampleNodeShortRead).size = sampleNodeShortRead.readSize :=
  ⟨by decide,
    (claim_C4_size_equals_bytes_read sampleProf sampleNodeShortRead
      { pid := 1, rip := 2, segment_count := 0, segments := [] } 1 3
      (by decide) rfl rfl (by decide) (by decide) (by decide)).2.1⟩

/-- Claim C10: the appended segment's `va_size` always carries the full
virtual extent, and the read result influences only the `size` field and
the buffer: two segments built from the same node with different read
results agree on `base_va`, `va_size`, `filename`, `vadtype`,
`isprivate` and `protection`. -/
theorem claim_C10_va_size_preserved (prof : RekallProfile) (info : NodeInfo)
    (d : dump_layer) (sv ev : Nat)
    (hc : d.segment_count < SEG_COUNT_MAX)
    (hs : info.startingVpn = some sv) (he : info.endingVpn = some ev)
    (h1 : vpn_shift sv ≠ 0) (h2 : vpn_shift ev ≠ 0) :
    handle_node prof info d
      = { d with segment_count := d.segment_count + 1
               , segments := d.segments ++
                   [mkSeg prof (vpn_shift sv)
                      (extent_sub (vpn_shift sv) (vpn_shift ev)) info] }
  ∧ (mkSeg prof (vpn_shift sv) (extent_sub (vpn_shift sv) (vpn_shift ev)) info).va_size
      = extent_sub (vpn_shift sv) (vpn_shift ev)
  ∧ ∀ r₁ r₂ : Nat,
      (mkSeg prof (vpn_shift sv) (extent_sub (vpn_shift sv) (vpn_shift ev))
          { info with readSize := r₁ }).base_va
        = (mkSeg prof (vpn_shift sv) (extent_sub (vpn_shift sv) (vpn_shift ev))
          { info with readSize := r₂ }).base_va
    ∧ (mkSeg prof (vpn_shift sv) (extent_sub (vpn_shift sv) (vpn_shift ev))
          { info with readSize := r₁ }).va_size
        = (mkSeg prof (vpn_shift sv) (extent_sub (vpn_shift sv) (vpn_shift ev))
          { info with readSize := r₂ }).va_size
    ∧ (mkSeg prof (vpn_shift sv) (extent_sub (vpn_shift sv) (vpn_shift ev))
          { info with readSize := r₁ }).filename
        = (mkSeg prof (vpn_shift sv) (extent_sub (vpn_shift sv) (vpn_shift ev))
          { info with readSize := r₂ }).filename
    ∧ (mkSeg prof (vpn_shift sv) (extent_sub (vpn_shift sv) (vpn_shift ev))
          { info with readSize := r₁ }).vadtype
        = (mkSeg prof (vpn_shift sv) (extent_sub (vpn_shift sv) (vpn_shift ev))
          { info with readSize := r₂ }).vadtype
    ∧ (mkSeg prof (vpn_shift sv) (extent_sub (vpn_shift sv) (vpn_shift ev))
          { info with readSize := r₁ }).isprivate
        = (mkSeg prof (vpn_shift sv) (extent_sub (vpn_shift sv) (vpn_shift ev))
          { info with readSize := r₂ }).isprivate
    ∧ (mkSeg prof (vpn_shift sv) (extent_sub (vpn_shift sv) (vpn_shift ev))
          { info with readSize := r₁ }).protection
        = (mkSeg prof (vpn_shift sv) (extent_sub (vpn_shift sv) (vpn_shift ev))
          { info with readSize := r₂ }).protection := by
  exact ⟨by simp [handle_node, Nat.not_le.mpr hc, hs, he, h1, h2], rfl,
    fun r₁ r₂ => ⟨rfl, rfl, rfl, rfl, rfl, rfl⟩⟩

/-- Concrete instance of claim C10: the short read leaves `va_size` at
the full 8192-byte extent. -/
theorem claim_C10_witness :
    (mkSeg sampleProf (vpn_shift 1) (extent_sub (vpn_shift 1) (vpn_shift 3))
        sampleNodeShortRead).va_size = extent_sub (vpn_shift 1) (vpn_shift 3) :=
  (claim_C10_va_size_preserved sampleProf sampleNodeShortRead
    { pid := 1, rip := 2, segment_count := 0, segments := [] } 1 3
    (by decide) rfl rfl (by decide) (by decide)).2.1

/-- Claim C9: `get_node_filename` reads the control-area pointer, then
the file-object pointer, masks its low three fast-reference bits before
reading the filename pointer, and reads the Unicode string there; a zero
pointer at any link, or a failed string read, leaves the output filename
untouched (`none`), and on success the result is exactly the string read
through the masked file object. -/
theorem claim_C9_filename_chain (mem : VmiMem) (prof : RekallProfile) (node : Nat) :
    (mem.read_addr (node + prof.mmvad_controlarea) = 0 →
       get_node_filename mem prof node = none)
  ∧ (∀ ca, mem.read_addr (node + prof.mmvad_controlarea) = ca → ca ≠ 0 →
       (mem.read_addr (ca + prof.controlarea_fileobject) = 0 →
          get_node_filename mem prof node = none)
     ∧ (∀ fo, mem.read_addr (ca + prof.controlarea_fileobject) = fo → fo ≠ 0 →
         (mem.read_addr ((fo &&& 0xFFFFFFFFFFFFFFF8) + prof.fileobject_filename) = 0 →
            get_node_filename mem prof node = none)
       ∧ (∀ fp,
            mem.read_addr ((fo &&& 0xFFFFFFFFFFFFFFF8) + prof.fileobject_filename) = fp →
            fp ≠ 0 →
            get_node_filename mem prof node = mem.read_unicode fp))) := by
  refine ⟨fun h => by simp [get_node_filename, h], fun ca hca hca0 => ?_⟩
  subst hca
  refine ⟨fun hfo => by simp [get_node_filename, hca0, hfo], fun fo hfo hfo0 => ?_⟩
  subst hfo
  refine ⟨fun hfp => by simp [get_node_filename, hca0, hfo0, hfp], fun fp hfp hfp0 => ?_⟩
  subst hfp
  simp [get_node_filename, hca0, hfo0, hfp0]

/-- A memory in which every pointer read lands on a nonzero value and
the Unicode read succeeds. -/
def sampleMem : VmiMem :=
  { read_addr := fun a => a + 3, read_unicode := fun _ => some "target.dll" }

/-- Concrete instance of claim C9: with control area 11, file object 30
(masked to 24) and filename pointer 99, the chain returns the string. -/
theorem claim_C9_witness :
    get_node_filename sampleMem sampleProf 0 = some "target.dll" :=
  (((claim_C9_filename_chain sampleMem sampleProf 0).2 11 rfl (by decide)).2
      30 rfl (by decide)).2 99 rfl (by decide)

/-- The `mem_seg_t` returned by `vmi_current_find_segment`. -/
structure mem_seg where
  base_va : Nat
  size : Nat
deriving DecidableEq

/-- The parts of a `vmi_event_t` that `process_layer` consults. -/
structure W2XEvent where
  gla : Nat
  rip : Nat
deriving DecidableEq

/-- Environment of one `process_layer` call: the segment
`vmi_current_find_segment` resolves for the faulting address, whether
`malloc(vma.size)` succeeds, and the byte count `vmi_read_va` stores
through its `dump_size` out-parameter. -/
structure ProcessLayerEnv where
  find_segment : mem_seg
  malloc_ok : Bool
  dump_size : Nat
deriving DecidableEq

/-- One entry of the dump queue as `add_to_dump_queue(buffer, dump_size,
pid, rip, base_va)` receives it; the buffer itself is represented by the
`len` bytes passed alongside it. -/
structure DumpQueueEntry where
  len : Nat
  pid : Nat
  rip : Nat
  base_va : Nat
deriving DecidableEq

/-- `process_layer`: warn and return when no segment covers the faulting
address (`vma.size == 0`); return when the buffer allocation fails;
otherwise enqueue the buffer with length `dump_size`, the byte count the
guest read actually returned. -/
def process_layer (env : ProcessLayerEnv) (event : W2XEvent) (pid : Nat) :
    Option DumpQueueEntry :=
  let vma := env.find_segment
  if vma.size = 0 then none
  else if env.malloc_ok = false then none
  else some { len := env.dump_size, pid := pid, rip := event.rip, base_va := vma.base_va }

/-- Claim C5: when the segment is found and the buffer allocation
succeeds, a guest read that returns fewer bytes than the segment size
still leads to the job being enqueued, with its length set to the bytes
actually read. -/
theorem claim_C5_short_read_job_still_emitted (env : ProcessLayerEnv)
    (event : W2XEvent) (pid : Nat)
    (hseg : env.find_segment.size ≠ 0) (hmalloc : env.malloc_ok = true)
    (hshort : env.dump_size < env.find_segment.size) :
    process_layer env event pid
      = some { len := env.dump_size, pid := pid, rip := event.rip
             , base_va := env.find_segment.base_va } := by
  simp [process_layer, hseg, hmalloc]

/-- Concrete instance of claim C5: 100 of 4096 bytes read, job emitted
with length 100. -/
theorem claim_C5_witness :
    (100 : Nat) < 4096
  ∧ process_layer { find_segment := { base_va := 4194304, size := 4096 }
                  , malloc_ok := true, dump_size := 100 }
      { gla := 4194304, rip := 4198400 } 42
      = some { len := 100, pid := 42, rip := 4198400, base_va := 4194304 } :=
  ⟨by decide,
    claim_C5_short_read_job_still_emitted
      { find_segment := { base_va := 4194304, size := 4096 }
      , malloc_ok := true, dump_size := 100 }
      { gla := 4194304, rip := 4198400 } 42 (by decide) rfl (by decide)⟩

/-- The `%04d` format: decimal digits zero-padded to width four. -/
def pad4 (n : Nat) : String :=
  let s := toString n
  if s.length < 4 then String.mk (List.replicate (4 - s.length) '0') ++ s else s

/-- The global `int dump_count = 0` of `output.c` at program start. -/
def dump_count_init : Nat := 0

/-- The two paths `volatility_vaddump` builds from `output_dir`, the pid
and the current `dump_count`: the per-dump directory `%s/%04d` and the
captured command output `%s/vaddump_output.%04d.%ld`. -/
structure VaddumpFiles where
  dump_dir : String
  output_file : String
deriving DecidableEq

/-- `volatility_vaddump`: build the dump directory and output-capture
paths from the current counter. -/
def volatility_vaddump (output_dir : String) (pid dump_count : Nat) : VaddumpFiles :=
  { dump_dir := output_dir ++ "/" ++ pad4 dump_count
  , output_file := output_dir ++ "/vaddump_output." ++ pad4 dump_count
      ++ "." ++ toString pid }

/-- The two paths `volatility_vadinfo` builds: the json file
`%s/vadinfo.%04d.%ld.json` and the captured command output
`%s/vadinfo_output.%04d.%ld`. -/
structure VadinfoFiles where
  json_file : String
  output_file : String
deriving DecidableEq

/-- `volatility_vadinfo`: build the vadinfo json and output-capture
paths from the current counter. -/
def volatility_vadinfo (output_dir : String) (pid dump_count : Nat) : VadinfoFiles :=
  { json_file := output_dir ++ "/vadinfo." ++ pad4 dump_count
      ++ "." ++ toString pid ++ ".json"
  , output_file := output_dir ++ "/vadinfo_output." ++ pad4 dump_count
      ++ "." ++ toString pid }

/-- The path `add_rip_to_json` rewrites: the vadinfo json file of the
same counter value. -/
def add_rip_to_json_path (output_dir : String) (pid dump_count : Nat) : String :=
  output_dir ++ "/vadinfo." ++ pad4 dump_count ++ "." ++ toString pid ++ ".json"

/-- Everything one invocation of the dump callback produced: the counter
value it used (`seq`), and the file names built from it. -/
structure CallbackOutput where
  pid : Nat
  rip : Nat
  seq : Nat
  vaddump : VaddumpFiles
  vadinfo : VadinfoFiles
  ripjson_file : String
deriving DecidableEq

/-- `volatility_callback_vaddump`: run `volatility_vaddump`,
`volatility_vadinfo` and `add_rip_to_json` with the current global
`dump_count`, then increment the counter by exactly one. -/
def volatility_callback_vaddump (output_dir : String) (pid rip dump_count : Nat) :
    CallbackOutput × Nat :=
  ({ pid := pid, rip := rip, seq := dump_count
   , vaddump := volatility_vaddump output_dir pid dump_count
   , vadinfo := volatility_vadinfo output_dir pid dump_count
   , ripjson_file := add_rip_to_json_path output_dir pid dump_count }
  , dump_count + 1)

/-- A run of W→X triggers in observation order: each `(pid, rip)` event
invokes the callback, threading the global counter. -/
def run_dump_callbacks (output_dir : String) :
    List (Nat × Nat) → Nat → List CallbackOutput × Nat
  | [], c => ([], c)
  | (pid, rip) :: evs, c =>
    let step := volatility_callback_vaddump output_dir pid rip c
    let rest := run_dump_callbacks output_dir evs step.2
    (step.1 :: rest.1, rest.2)

/-- The counter values a run uses are consecutive from the start value,
and the final counter advanced by the number of triggers. -/
theorem run_dump_callbacks_seq (dir : String) :
    ∀ (evs : List (Nat × Nat)) (c : Nat),
      ((run_dump_callbacks dir evs c).1.map CallbackOutput.seq
          = List.range' c evs.length)
    ∧ (run_dump_callbacks dir evs c).2 = c + evs.length
  | [], c => ⟨rfl, rfl⟩
  | (pid, rip) :: evs, c => by
    obtain ⟨h1, h2⟩ := run_dump_callbacks_seq dir evs (c + 1)
    constructor
    · simp only [run_dump_callbacks, volatility_callback_vaddump, List.map_cons,
        List.length_cons, List.range'_succ]
      rw [h1]
    · simp only [run_dump_callbacks, volatility_callback_vaddump, List.length_cons]
      rw [h2]
      omega

/-- Every output of a run carries file names built from its own counter
value. -/
theorem run_dump_callbacks_mem (dir : String) :
    ∀ (evs : List (Nat × Nat)) (c : Nat) (o : CallbackOutput),
      o ∈ (run_dump_callbacks dir evs c).1 →
        o.vaddump = volatility_vaddump dir o.pid o.seq
      ∧ o.vadinfo = volatility_vadinfo dir o.pid o.seq
      ∧ o.ripjson_file = add_rip_to_json_path dir o.pid o.seq
  | [], _, o, h => by simp [run_dump_callbacks] at h
  | (pid, rip) :: evs, c, o, h => by
    simp only [run_dump_callbacks, volatility_callback_vaddump, List.mem_cons] at h
    rcases h with h | h
    · subst h
      exact ⟨rfl, rfl, rfl⟩
    · exact run_dump_callbacks_mem dir evs (c + 1) o h

/-- Claim C6: starting from the initial counter 0, the sequence numbers
of the emitted dumps are exactly `0, 1, ..., n-1` in trigger order
(strictly increasing, no gaps, the n-th dump carries n-1), every
invocation derives all its output names from its own counter value, and
the counter ends at the number of triggers. -/
theorem claim_C6_sequence_numbers (dir : String) (evs : List (Nat × Nat)) :
    ((run_dump_callbacks dir evs dump_count_init).1.map CallbackOutput.seq
        = List.range evs.length)
  ∧ ((run_dump_callbacks dir evs dump_count_init).1.map CallbackOutput.seq).Pairwise
      (· < ·)
  ∧ (run_dump_callbacks dir evs dump_count_init).2 = evs.length
  ∧ ∀ o ∈ (run_dump_callbacks dir evs dump_count_init).1,
        o.vaddump = volatility_vaddump dir o.pid o.seq
      ∧ o.vadinfo = volatility_vadinfo dir o.pid o.seq
      ∧ o.ripjson_file = add_rip_to_json_path dir o.pid o.seq := by
  obtain ⟨h1, h2⟩ := run_dump_callbacks_seq dir evs dump_count_init
  have hr : (run_dump_callbacks dir evs dump_count_init).1.map CallbackOutput.seq
      = List.range evs.length := by
    rw [h1, dump_count_init, List.range_eq_range']
  refine ⟨hr, ?_, by rw [h2, dump_count_init, Nat.zero_add],
    fun o ho => run_dump_callbacks_mem dir evs dump_count_init o ho⟩
  rw [hr]
  exact List.pairwise_lt_range evs.length

/-- Concrete instance of claim C6: two triggers produce sequence numbers
0 and 1. -/
theorem claim_C6_witness :
    (run_dump_callbacks "out" [(1, 2), (3, 4)] dump_count_init).1.map CallbackOutput.seq
      = List.range 2 :=
  (claim_C6_sequence_numbers "out" [(1, 2), (3, 4)]).1
